import Mathlib

/-!
Verification development for the structured-grid dimensionality and
re-meshing model of this repository (`points_to_cells`, `cells_to_points`,
`pad_image` and the dimensional-operation mask resolution of `ImageData`).

The implementation module itself is not present in the source tree (only its
test suite is), so the operations below are modelled from the specification,
with the concrete behavior pinned by the in-tree test matrix
(`tests/core/test_imagedata_filters.py`).  All functions are pure: each
operation maps an immutable grid descriptor and options to a new descriptor
or a structured error, mirroring the spec's error kinds (`InvalidArgument`,
`TypeError`, `MissingData`) with structured payloads that carry the data the
corresponding error messages name.
-/

namespace PyVista

/-- Decidable equality for `Except` results, so that concrete runs of the
modelled operations can be checked by evaluation. -/
instance exceptDecEq {ε α : Type} [DecidableEq ε] [DecidableEq α] :
    DecidableEq (Except ε α) := fun a b =>
  match a, b with
  | .ok x, .ok y =>
      if h : x = y then .isTrue (by rw [h]) else .isFalse (by simp [h])
  | .error e, .error f =>
      if h : e = f then .isTrue (by rw [h]) else .isFalse (by simp [h])
  | .ok _, .error _ => .isFalse (by simp)
  | .error _, .ok _ => .isFalse (by simp)

/-- One sample's component vector. -/
abbrev Vec := List ℚ

/-- A named data array: domain binding is positional (a `Grid` keeps separate
point-data and cell-data lists), with a component count and per-sample
component vectors. -/
structure DataArray where
  name : String
  nComp : ℕ
  values : List Vec
deriving DecidableEq

/-- Point counts along x, y, z. -/
abbrev Dims3 := ℕ × ℕ × ℕ

/-- Per-axis participation mask. -/
abbrev Mask := Bool × Bool × Bool

/-- Modelled from the spec: the grid descriptor of `ImageData` — dimensions
(point counts, each ≥ 1), uniform index-to-physical placement given by
`origin` and `spacing`, the array store split by domain, and the active
scalars name.  (The implementation file is missing from the source tree;
only its tests are present.) -/
structure Grid where
  dims : Dims3
  origin : ℚ × ℚ × ℚ
  spacing : ℚ × ℚ × ℚ
  pointData : List DataArray
  cellData : List DataArray
  active : Option String
deriving DecidableEq

/-- Number of points of a grid with the given dimensions. -/
def nPointsOf (d : Dims3) : ℕ := d.1 * d.2.1 * d.2.2

/-- Cell count along one axis: `max (d - 1) 1` (a singleton point axis still
contributes one cell layer, as in VTK structured data). -/
def cellDim (n : ℕ) : ℕ := max (n - 1) 1

/-- Number of cells of a grid with the given point dimensions. -/
def nCellsOf (d : Dims3) : ℕ := cellDim d.1 * cellDim d.2.1 * cellDim d.2.2

/-- Physical bounds of one axis: `(origin, origin + spacing * (dim - 1))`. -/
def axisBounds (o s : ℚ) (d : ℕ) : ℚ × ℚ := (o, o + s * ((d : ℚ) - 1))

/-- Physical bounds of a grid, per axis. -/
def Grid.bounds (g : Grid) : (ℚ × ℚ) × (ℚ × ℚ) × (ℚ × ℚ) :=
  (axisBounds g.origin.1 g.spacing.1 g.dims.1,
   axisBounds g.origin.2.1 g.spacing.2.1 g.dims.2.1,
   axisBounds g.origin.2.2 g.spacing.2.2 g.dims.2.2)

/-- Names of a list of data arrays. -/
def names (l : List DataArray) : List String := l.map DataArray.name

/-- Structured error payloads, mirroring the spec's error kinds.  Every
constructor except `padSizeNotInt` (a `TypeError`) and `missingData`
(a `MissingData`) is an `InvalidArgument`; each carries the values the
corresponding message names. -/
inductive ImgError where
  /-- Scalars with the given name are bound to the wrong domain
  (`expectedPoint = true` means point data was required). -/
  | invalidScalars (name : String) (expectedPoint : Bool)
  /-- Named scalars are absent from the grid. -/
  | keyNotFound (name : String)
  /-- No arrays present when an operation requires one. -/
  | missingData
  /-- Re-mesh sanity cross-check failed: mapping `nIn` samples of the input
  onto `nOut` samples of the output. -/
  | remeshMismatch (inDims outDims : Dims3) (nIn nOut : ℕ)
  /-- The mask, size and operation would produce a dimension ≤ 0. -/
  | dimsNonPositive (m : Mask) (result : ℤ × ℤ × ℤ)
  /-- No mask reaches the requested dimensionality class. -/
  | unreachableDim (target : ℕ) (isAdd : Bool)
  /-- The operation-mask argument is not an accepted value. -/
  | invalidMaskArg
  /-- Negative pad size, naming the offending value. -/
  | padSizeNegative (v : ℤ)
  /-- Pad size length not in {1, 2, 3, 4, 6}. -/
  | padSizeBadLength (n : ℕ)
  /-- Pad size is not one-dimensional. -/
  | padSizeBadRank (ndim : ℕ)
  /-- Pad size has a non-integer dtype (`TypeError`). -/
  | padSizeNotInt
  /-- Pad-value component count does not match an array's component count,
  naming the array and both counts. -/
  | padComponentMismatch (name : String) (nValue nArray : ℕ)
deriving DecidableEq

/-- `TypeError` classification; all other errors are `InvalidArgument` or
`MissingData`. -/
def ImgError.isTypeError : ImgError → Bool
  | .padSizeNotInt => true
  | _ => false

/-- The `dimensionality` / `operation_mask` argument: an explicit boolean
triple, the literal `"preserve"`, or a named class `"0D"`–`"3D"`
(equivalently an integer 0–3). -/
inductive OperationMask where
  | explicitMask (m : Mask)
  | preserve
  | dimensionality (n : ℕ)
deriving DecidableEq

/-- One axis of the dimensional operation: apply `d + s` or `d - s` (in ℤ)
when the axis is masked, else keep `d`. -/
def axOp (isAdd : Bool) (d s : ℕ) (m : Bool) : ℤ :=
  if m then (if isAdd then (d : ℤ) + s else (d : ℤ) - s) else d

/-- Apply the dimensional operation on all three axes. -/
def applyOp (isAdd : Bool) (d s : Dims3) (m : Mask) : ℤ × ℤ × ℤ :=
  (axOp isAdd d.1 s.1 m.1, axOp isAdd d.2.1 s.2.1 m.2.1, axOp isAdd d.2.2 s.2.2 m.2.2)

/-- All result dimensions are ≥ 1. -/
def allPos (r : ℤ × ℤ × ℤ) : Bool := (1 ≤ r.1) && (1 ≤ r.2.1) && (1 ≤ r.2.2)

/-- Number of non-singleton axes of an integer dimension triple. -/
def countNSZ (r : ℤ × ℤ × ℤ) : ℕ :=
  (if 1 < r.1 then 1 else 0) + (if 1 < r.2.1 then 1 else 0) + (if 1 < r.2.2 then 1 else 0)

/-- Number of non-singleton axes of a dimension triple. -/
def nsCount (d : Dims3) : ℕ :=
  (if 1 < d.1 then 1 else 0) + (if 1 < d.2.1 then 1 else 0) + (if 1 < d.2.2 then 1 else 0)

/-- Truncate the integer result triple back to ℕ. -/
def toDims (r : ℤ × ℤ × ℤ) : Dims3 := (r.1.toNat, r.2.1.toNat, r.2.2.toNat)

/-- Candidate masks in preference order: more axes masked first, then `true`
at a lower-indexed axis first (the order the test matrix pins). -/
def maskOrder : List Mask :=
  [(true, true, true), (true, true, false), (true, false, true), (true, false, false),
   (false, true, true), (false, true, false), (false, false, true), (false, false, false)]

/-- A mask is valid for a named dimensionality class when the operation's
result keeps every dimension ≥ 1 and has exactly `n` non-singleton axes. -/
def validMask (isAdd : Bool) (d s : Dims3) (n : ℕ) (m : Mask) : Bool :=
  allPos (applyOp isAdd d s m) && (countNSZ (applyOp isAdd d s m) == n)

/-- Modelled from the spec: `ImageData._validate_dimensional_operation`
(implementation file missing from the source tree).  Resolves the
`operation_mask` argument to a concrete per-axis mask and the resulting
dimensions: an explicit mask is used as-is, `"preserve"` masks exactly the
currently non-singleton axes, and a named class `nD` selects the first mask
in preference order whose result has exactly `n` non-singleton axes and no
dimension below 1.  Fails with `InvalidArgument` if a result dimension would
be ≤ 0 or the class is unreachable. -/
def validateDimOp (d : Dims3) (spec : OperationMask) (isAdd : Bool) (s : Dims3) :
    Except ImgError (Mask × Dims3) :=
  match spec with
  | .explicitMask m =>
      let r := applyOp isAdd d s m
      if allPos r then .ok (m, toDims r) else .error (.dimsNonPositive m r)
  | .preserve =>
      let m : Mask := (decide (1 < d.1), decide (1 < d.2.1), decide (1 < d.2.2))
      let r := applyOp isAdd d s m
      if allPos r then .ok (m, toDims r) else .error (.dimsNonPositive m r)
  | .dimensionality n =>
      if n ≤ 3 then
        match maskOrder.find? (validMask isAdd d s n) with
        | some m => .ok (m, toDims (applyOp isAdd d s m))
        | none => .error (.unreachableDim n isAdd)
      else .error .invalidMaskArg

/-- Keep an active-scalars name only when it names a surviving array. -/
def activeIfIn (a : Option String) (ns : List String) : Option String :=
  match a with
  | some x => if ns.contains x then some x else none
  | none => none

/-- Shift each masked axis of the origin by `c` times its spacing. -/
def shiftOrigin (o s : ℚ × ℚ × ℚ) (m : Mask) (c : ℚ) : ℚ × ℚ × ℚ :=
  (o.1 + (if m.1 then c * s.1 else 0),
   o.2.1 + (if m.2.1 then c * s.2.1 else 0),
   o.2.2 + (if m.2.2 then c * s.2.2 else 0))

/-- The points→cells remap after the scalars-domain check has passed. -/
def pointsToCellsChecked (g : Grid) (spec : OperationMask) (scalars : Option String) :
    Except ImgError Grid :=
  match validateDimOp g.dims spec true (1, 1, 1) with
  | .error e => .error e
  | .ok (m, nd) =>
      if nPointsOf g.dims = nCellsOf nd then
        let kept := match scalars with
          | some nm => g.pointData.filter (fun a => a.name == nm)
          | none => g.pointData
        .ok { dims := nd
              origin := shiftOrigin g.origin g.spacing m (-(1 : ℚ) / 2)
              spacing := g.spacing
              pointData := []
              cellData := kept
              active := match scalars with
                | some nm => some nm
                | none => activeIfIn g.active (names kept) }
      else .error (.remeshMismatch g.dims nd (nPointsOf g.dims) (nCellsOf nd))

/-- Modelled from the spec: `ImageData.points_to_cells` (implementation file
missing from the source tree).  Re-meshes a point-sampled grid as the dual
cell-sampled grid: masked axes gain one point-dimension, the origin shifts
by half a spacing so the input's points become the output's cell centers,
point arrays are relabelled as cell arrays (optionally restricted to one
selected scalars array, which must be point data), existing cell arrays are
dropped, and the call fails when the input's point count does not equal the
output's cell count. -/
def pointsToCells (g : Grid) (spec : OperationMask) (scalars : Option String) :
    Except ImgError Grid :=
  match scalars with
  | some nm =>
      if (names g.pointData).contains nm then pointsToCellsChecked g spec (some nm)
      else if (names g.cellData).contains nm then .error (.invalidScalars nm true)
      else .error (.keyNotFound nm)
  | none => pointsToCellsChecked g spec none

/-- The cells→points remap after the scalars-domain check has passed. -/
def cellsToPointsChecked (g : Grid) (spec : OperationMask) (scalars : Option String) :
    Except ImgError Grid :=
  match validateDimOp g.dims spec false (1, 1, 1) with
  | .error e => .error e
  | .ok (m, nd) =>
      if nCellsOf g.dims = nPointsOf nd then
        let kept := match scalars with
          | some nm => g.cellData.filter (fun a => a.name == nm)
          | none => g.cellData
        .ok { dims := nd
              origin := shiftOrigin g.origin g.spacing m ((1 : ℚ) / 2)
              spacing := g.spacing
              pointData := kept
              cellData := []
              active := match scalars with
                | some nm => some nm
                | none => activeIfIn g.active (names kept) }
      else .error (.remeshMismatch g.dims nd (nCellsOf g.dims) (nPointsOf nd))

/-- Modelled from the spec: `ImageData.cells_to_points` (implementation file
missing from the source tree).  The inverse re-mesh: masked axes lose one
point-dimension (failing when that would drop a dimension below 1), the
origin shifts by half a spacing so the input's cell centers become the
output's points, cell arrays are relabelled as point arrays, point arrays
are dropped, and the call fails when the input's cell count does not equal
the output's point count. -/
def cellsToPoints (g : Grid) (spec : OperationMask) (scalars : Option String) :
    Except ImgError Grid :=
  match scalars with
  | some nm =>
      if (names g.cellData).contains nm then cellsToPointsChecked g spec (some nm)
      else if (names g.pointData).contains nm then .error (.invalidScalars nm false)
      else .error (.keyNotFound nm)
  | none => cellsToPointsChecked g spec none

/-- The raw `pad_size` argument: `ndim` is the rank of the array the caller
passed (a flat sequence has rank 1) and `values` its flattened entries, kept
as rationals so that a non-integer dtype is representable. -/
structure PadSizeRaw where
  ndim : ℕ
  values : List ℚ
deriving DecidableEq

/-- The `pad_value` argument: a constant scalar/vector fill, or the literal
tokens `"mirror"` / `"wrap"`. -/
inductive PadValue where
  | constant (v : List ℚ)
  | mirror
  | wrap
deriving DecidableEq

/-- A rational is integral (integer dtype) when its denominator is 1. -/
def qInt (q : ℚ) : Bool := q.den == 1

/-- Expand an accepted `pad_size` to one `(before, after)` pair per axis:
one value pads all axes symmetrically, 2 values pad the X and Y axes
symmetrically, 3 values pad each axis symmetrically, 4 values are the X and
Y before/after pairs, 6 values one before/after pair per axis.  Any other
length is rejected. -/
def normalizePad : List ℤ → Option (ℤ × ℤ × ℤ × ℤ × ℤ × ℤ)
  | [a] => some (a, a, a, a, a, a)
  | [a, b] => some (a, a, b, b, 0, 0)
  | [a, b, c] => some (a, a, b, b, c, c)
  | [a, b, c, d] => some (a, b, c, d, 0, 0)
  | [a, b, c, d, e, f] => some (a, b, c, d, e, f)
  | _ => none

/-- Per-axis before-pad amounts, zeroed on unmasked axes. -/
def beforePads (m : Mask) (bx bY bz : ℤ) : Dims3 :=
  (if m.1 then bx.toNat else 0, if m.2.1 then bY.toNat else 0, if m.2.2 then bz.toNat else 0)

/-- Flat VTK point index of `(i, j, k)` in an x-fastest grid of width `nx`
and depth `ny`. -/
def flatIdx (nx ny i j k : ℕ) : ℕ := i + nx * (j + ny * k)

/-- Reflect an out-of-range signed index into `[0, d)` with edge repetition
(the `"mirror"` rule). -/
def reflectIdx (s : ℤ) (d : ℕ) : ℕ :=
  let m := (((s % (2 * d)) + 2 * d) % (2 * d)).toNat
  if m < d then m else 2 * d - 1 - m

/-- Wrap a signed index into `[0, d)` cyclically (the `"wrap"` rule). -/
def wrapIdx (s : ℤ) (d : ℕ) : ℕ := (((s % d) + d) % d).toNat

/-- The fill vector for constant padding: a single value broadcasts across
all components of the target array. -/
def padVec (v : List ℚ) (nComp : ℕ) : Vec :=
  if v.length == 1 then List.replicate nComp (v.getD 0 0) else v

/-- Value of the padded array at output coordinates `(i, j, k)`: inside the
original region the source sample is copied; outside it, a constant value
fills, or the source index is mirrored/wrapped back into range. -/
def padSample (d : Dims3) (b : Dims3) (pv : PadValue) (arr : DataArray)
    (i j k : ℕ) : Vec :=
  let sx : ℤ := (i : ℤ) - b.1
  let sy : ℤ := (j : ℤ) - b.2.1
  let sz : ℤ := (k : ℤ) - b.2.2
  match pv with
  | .constant v =>
      if 0 ≤ sx ∧ sx < (d.1 : ℤ) ∧ 0 ≤ sy ∧ sy < (d.2.1 : ℤ) ∧ 0 ≤ sz ∧ sz < (d.2.2 : ℤ) then
        arr.values.getD (flatIdx d.1 d.2.1 sx.toNat sy.toNat sz.toNat) []
      else padVec v arr.nComp
  | .mirror =>
      arr.values.getD (flatIdx d.1 d.2.1 (reflectIdx sx d.1) (reflectIdx sy d.2.1) (reflectIdx sz d.2.2)) []
  | .wrap =>
      arr.values.getD (flatIdx d.1 d.2.1 (wrapIdx sx d.1) (wrapIdx sy d.2.1) (wrapIdx sz d.2.2)) []

/-- Flat values of the padded array over the new dimensions `nd`, x-fastest. -/
def padVals (d nd b : Dims3) (pv : PadValue) (arr : DataArray) : List Vec :=
  (List.range (nd.1 * nd.2.1 * nd.2.2)).map fun t =>
    padSample d b pv arr (t % nd.1) (t / nd.1 % nd.2.1) (t / nd.1 / nd.2.1)

/-- Pad one data array, keeping its name and component count. -/
def padArrayD (d nd b : Dims3) (pv : PadValue) (arr : DataArray) : DataArray :=
  { arr with values := padVals d nd b pv arr }

/-- Component-count check for a vector pad value against the target arrays:
returns the first offending array's name together with the value's and the
array's component counts.  A single-component value broadcasts and never
mismatches. -/
def compCheck (pv : PadValue) (targets : List DataArray) : Option (String × ℕ × ℕ) :=
  match pv with
  | .constant v =>
      if v.length == 1 then none
      else (targets.find? (fun t => ¬ t.nComp = v.length)).map fun t => (t.name, v.length, t.nComp)
  | _ => none

/-- Modelled from the spec: `ImageData.pad_image` (implementation file
missing from the source tree).  Validates and normalizes `pad_size`
(rank 1, integer dtype, length in {1, 2, 3, 4, 6}, non-negative), resolves
the selected scalars (the active point scalars by default, which must be
point data), resolves the dimensionality mask and the output dimensions,
checks a vector pad value's component count against every target array, and
builds the output: padded point arrays only (cell arrays are never padded
and are dropped), the origin shifted by `-before * spacing` on each padded
axis, and the selected scalars active.  All validation precedes
construction, so a failed call returns only the structured error.
This stage checks the pad value against the target arrays and constructs
the output grid. -/
def padBuild (g : Grid) (pv : PadValue) (allScalars : Bool) (sName : String)
    (m : Mask) (nd : Dims3) (bx bY bz : ℤ) : Except ImgError Grid :=
  let b := beforePads m bx bY bz
  let targets := if allScalars then g.pointData
    else g.pointData.filter (fun a => a.name == sName)
  match compCheck pv targets with
  | some (nm, nv, na) => .error (.padComponentMismatch nm nv na)
  | none =>
      .ok { dims := nd
            origin := (g.origin.1 - (b.1 : ℚ) * g.spacing.1,
                       g.origin.2.1 - (b.2.1 : ℚ) * g.spacing.2.1,
                       g.origin.2.2 - (b.2.2 : ℚ) * g.spacing.2.2)
            spacing := g.spacing
            pointData := targets.map (padArrayD g.dims nd b pv)
            cellData := []
            active := some sName }

/-- The pad after `pad_size` has been validated and normalized. -/
def padChecked (g : Grid) (pv : PadValue) (scalars : Option String)
    (allScalars : Bool) (spec : OperationMask) (bx ax bY ay bz az : ℤ) :
    Except ImgError Grid :=
  match (match scalars with | some nm => some nm | none => g.active) with
  | none => .error .missingData
  | some sName =>
      if (names g.pointData).contains sName then
        match validateDimOp g.dims spec true
            ((bx + ax).toNat, (bY + ay).toNat, (bz + az).toNat) with
        | .error e => .error e
        | .ok (m, nd) => padBuild g pv allScalars sName m nd bx bY bz
      else if (names g.cellData).contains sName then .error (.invalidScalars sName true)
      else .error (.keyNotFound sName)

/-- Modelled from the spec: `ImageData.pad_image` (implementation file
missing from the source tree).  Validates `pad_size` (rank 1, integer
dtype, length in {1, 2, 3, 4, 6}, non-negative), normalizes it to one
before/after pair per axis, and hands off to `padChecked`. -/
def padImage (g : Grid) (raw : PadSizeRaw) (pv : PadValue) (scalars : Option String)
    (allScalars : Bool) (spec : OperationMask) : Except ImgError Grid :=
  if raw.ndim ≠ 1 then .error (.padSizeBadRank raw.ndim)
  else if ¬ raw.values.all qInt then .error .padSizeNotInt
  else
    let ints := raw.values.map Rat.num
    match normalizePad ints with
    | none => .error (.padSizeBadLength ints.length)
    | some (bx, ax, bY, ay, bz, az) =>
        match ints.find? (fun v => v < 0) with
        | some v => .error (.padSizeNegative v)
        | none => padChecked g pv scalars allScalars spec bx ax bY ay bz az

/-- Target dimensions of the growth direction: `+1` on masked axes. -/
def addDims (d : Dims3) (m : Mask) : Dims3 :=
  (d.1 + (if m.1 then 1 else 0), d.2.1 + (if m.2.1 then 1 else 0),
   d.2.2 + (if m.2.2 then 1 else 0))

/-- Target dimensions of the shrink direction: `-1` on masked axes. -/
def subDims (d : Dims3) (m : Mask) : Dims3 :=
  (d.1 - (if m.1 then 1 else 0), d.2.1 - (if m.2.1 then 1 else 0),
   d.2.2 - (if m.2.2 then 1 else 0))

lemma validate_explicit_add_one (d : Dims3) (m : Mask)
    (h1 : 1 ≤ d.1) (h2 : 1 ≤ d.2.1) (h3 : 1 ≤ d.2.2) :
    validateDimOp d (.explicitMask m) true (1, 1, 1) = .ok (m, addDims d m) := by
  obtain ⟨d1, d2, d3⟩ := d
  obtain ⟨a, b, c⟩ := m
  simp only at h1 h2 h3
  simp only [validateDimOp]
  split
  · simp only [applyOp, axOp, toDims, addDims, Except.ok.injEq, Prod.mk.injEq]
    refine ⟨trivial, ?_, ?_, ?_⟩ <;> cases a <;> cases b <;> cases c <;> simp
  · next h =>
      exfalso
      simp only [allPos, applyOp, axOp, Bool.and_eq_true, decide_eq_true_eq] at h
      cases a <;> cases b <;> cases c <;> simp at h <;> omega

lemma validate_explicit_sub_one (d : Dims3) (m : Mask)
    (h1 : m.1 = true → 2 ≤ d.1) (h2 : m.2.1 = true → 2 ≤ d.2.1)
    (h3 : m.2.2 = true → 2 ≤ d.2.2)
    (k1 : 1 ≤ d.1) (k2 : 1 ≤ d.2.1) (k3 : 1 ≤ d.2.2) :
    validateDimOp d (.explicitMask m) false (1, 1, 1) = .ok (m, subDims d m) := by
  obtain ⟨d1, d2, d3⟩ := d
  obtain ⟨a, b, c⟩ := m
  simp only at h1 h2 h3 k1 k2 k3
  simp only [validateDimOp]
  split
  · simp only [applyOp, axOp, toDims, subDims, Except.ok.injEq, Prod.mk.injEq]
    refine ⟨trivial, ?_, ?_, ?_⟩ <;> cases a <;> cases b <;> cases c <;> simp_all
  · next h =>
      exfalso
      simp only [allPos, applyOp, axOp, Bool.and_eq_true, decide_eq_true_eq] at h
      cases a <;> cases b <;> cases c <;> simp_all <;> omega

lemma validate_explicit_sub_err (d : Dims3) (m : Mask)
    (hbad : (m.1 = true ∧ d.1 < 2) ∨ (m.2.1 = true ∧ d.2.1 < 2) ∨
      (m.2.2 = true ∧ d.2.2 < 2)) :
    validateDimOp d (.explicitMask m) false (1, 1, 1)
      = .error (.dimsNonPositive m (applyOp false d (1, 1, 1) m)) := by
  obtain ⟨d1, d2, d3⟩ := d
  obtain ⟨a, b, c⟩ := m
  simp only at hbad
  simp only [validateDimOp]
  rw [if_neg]
  intro h
  simp only [allPos, applyOp, axOp, Bool.and_eq_true, decide_eq_true_eq] at h
  rcases hbad with ⟨ha, hd⟩ | ⟨hb, hd⟩ | ⟨hc, hd⟩ <;> subst_vars <;> simp at h <;> omega

/-- Count of `true` among three booleans. -/
def boolCount (x y z : Bool) : ℕ := x.toNat + y.toNat + z.toNat

/-- The named-class search reduced to the singleton pattern `b` of the
current dimensions (for the growth direction, a mask is valid exactly when
`n` axes are masked-or-already-non-singleton). -/
def findMask (b : Mask) (n : ℕ) : Option Mask :=
  maskOrder.find? fun m =>
    boolCount (m.1 || b.1) (m.2.1 || b.2.1) (m.2.2 || b.2.2) == n

lemma axPos_add (dd ss : ℕ) (mm : Bool) (hd : 1 ≤ dd) :
    (1 : ℤ) ≤ axOp true dd ss mm := by
  cases mm <;> simp [axOp] <;> omega

lemma axNSZ_add (dd ss : ℕ) (mm : Bool) (hd : 1 ≤ dd) (hs : 1 ≤ ss) :
    (if 1 < axOp true dd ss mm then 1 else 0) = (mm || decide (1 < dd)).toNat := by
  cases mm <;> by_cases h : 1 < dd <;> simp [axOp, h] <;> omega

lemma axNS_toNat_add (dd ss : ℕ) (mm : Bool) (hd : 1 ≤ dd) (hs : 1 ≤ ss) :
    (if 1 < (axOp true dd ss mm).toNat then 1 else 0) = (mm || decide (1 < dd)).toNat := by
  cases mm <;> by_cases h : 1 < dd <;> simp [axOp, h] <;> omega

lemma validMask_add_eq (d s : Dims3) (n : ℕ)
    (hd1 : 1 ≤ d.1) (hd2 : 1 ≤ d.2.1) (hd3 : 1 ≤ d.2.2)
    (hs1 : 1 ≤ s.1) (hs2 : 1 ≤ s.2.1) (hs3 : 1 ≤ s.2.2) (m : Mask) :
    validMask true d s n m
      = (boolCount (m.1 || decide (1 < d.1)) (m.2.1 || decide (1 < d.2.1))
          (m.2.2 || decide (1 < d.2.2)) == n) := by
  have p1 := axPos_add d.1 s.1 m.1 hd1
  have p2 := axPos_add d.2.1 s.2.1 m.2.1 hd2
  have p3 := axPos_add d.2.2 s.2.2 m.2.2 hd3
  simp only [validMask, allPos, applyOp, countNSZ, boolCount,
    axNSZ_add d.1 s.1 m.1 hd1 hs1, axNSZ_add d.2.1 s.2.1 m.2.1 hd2 hs2,
    axNSZ_add d.2.2 s.2.2 m.2.2 hd3 hs3,
    decide_eq_true p1, decide_eq_true p2, decide_eq_true p3, Bool.true_and,
    Bool.and_eq_true]

lemma validate_named_add (d s : Dims3) (n : ℕ) (hn : n ≤ 3)
    (hd1 : 1 ≤ d.1) (hd2 : 1 ≤ d.2.1) (hd3 : 1 ≤ d.2.2)
    (hs1 : 1 ≤ s.1) (hs2 : 1 ≤ s.2.1) (hs3 : 1 ≤ s.2.2) :
    validateDimOp d (.dimensionality n) true s =
      match findMask (decide (1 < d.1), decide (1 < d.2.1), decide (1 < d.2.2)) n with
      | some m => .ok (m, toDims (applyOp true d s m))
      | none => .error (.unreachableDim n true) := by
  have hf : validMask true d s n = fun m =>
      boolCount (m.1 || decide (1 < d.1)) (m.2.1 || decide (1 < d.2.1))
        (m.2.2 || decide (1 < d.2.2)) == n :=
    funext fun m => validMask_add_eq d s n hd1 hd2 hd3 hs1 hs2 hs3 m
  simp only [validateDimOp, findMask]
  rw [if_pos hn, hf]

lemma nsCount_toDims_add (d s : Dims3) (m : Mask)
    (hd1 : 1 ≤ d.1) (hd2 : 1 ≤ d.2.1) (hd3 : 1 ≤ d.2.2)
    (hs1 : 1 ≤ s.1) (hs2 : 1 ≤ s.2.1) (hs3 : 1 ≤ s.2.2) :
    nsCount (toDims (applyOp true d s m))
      = boolCount (m.1 || decide (1 < d.1)) (m.2.1 || decide (1 < d.2.1))
          (m.2.2 || decide (1 < d.2.2)) := by
  simp only [nsCount, toDims, applyOp, boolCount,
    axNS_toNat_add d.1 s.1 m.1 hd1 hs1, axNS_toNat_add d.2.1 s.2.1 m.2.1 hd2 hs2,
    axNS_toNat_add d.2.2 s.2.2 m.2.2 hd3 hs3]

lemma nsCount_eq_boolCount (d : Dims3) :
    nsCount d = boolCount (decide (1 < d.1)) (decide (1 < d.2.1)) (decide (1 < d.2.2)) := by
  simp only [nsCount, boolCount]
  by_cases h1 : 1 < d.1 <;> by_cases h2 : 1 < d.2.1 <;> by_cases h3 : 1 < d.2.2 <;>
    simp [h1, h2, h3]

/-- Exhaustive check of the reduced named-class search over all eight
singleton patterns and target classes 0–3, for the growth direction. -/
lemma findMask_spec (b : Mask) (n : ℕ) (hn : n ≤ 3) :
    (boolCount b.1 b.2.1 b.2.2 ≤ n → ∃ m, findMask b n = some m ∧
      boolCount (m.1 || b.1) (m.2.1 || b.2.1) (m.2.2 || b.2.2) = n ∧
      (b.1 = true → m.1 = true) ∧ (b.2.1 = true → m.2.1 = true) ∧
      (b.2.2 = true → m.2.2 = true) ∧
      (b.1 = false → b.2.1 = false → m.2.1 = true → m.1 = true) ∧
      (b.1 = false → b.2.2 = false → m.2.2 = true → m.1 = true) ∧
      (b.2.1 = false → b.2.2 = false → m.2.2 = true → m.2.1 = true)) ∧
    (n < boolCount b.1 b.2.1 b.2.2 → findMask b n = none) := by
  obtain ⟨x, y, z⟩ := b
  interval_cases n <;> cases x <;> cases y <;> cases z <;>
    refine ⟨fun h => ?_, fun h => ?_⟩ <;>
    first
      | exact absurd h (by decide)
      | decide

/-- Claim C3 (amended to the growth direction): for every current dimension
triple (entries ≥ 1), operation sizes ≥ 1, and requested class `n` ≤ 3,
resolving the class for the growth operation returns a mask whose result
has exactly `n` non-singleton axes, that keeps every already-non-singleton
axis selected (so no populated axis is ever removed from the result), and
that adds the lowest-indexed singleton axes first; it fails with an
`InvalidArgument` error exactly when the class cannot be reached without
shrinking a populated axis, i.e. when more than `n` axes are already
non-singleton. -/
theorem claim_C3_resolver (d s : Dims3) (n : ℕ)
    (hd1 : 1 ≤ d.1) (hd2 : 1 ≤ d.2.1) (hd3 : 1 ≤ d.2.2)
    (hs1 : 1 ≤ s.1) (hs2 : 1 ≤ s.2.1) (hs3 : 1 ≤ s.2.2) (hn : n ≤ 3) :
    (nsCount d ≤ n → ∃ m nd, validateDimOp d (.dimensionality n) true s = .ok (m, nd) ∧
      nsCount nd = n ∧
      (1 < d.1 → m.1 = true) ∧ (1 < d.2.1 → m.2.1 = true) ∧ (1 < d.2.2 → m.2.2 = true) ∧
      (d.1 = 1 → d.2.1 = 1 → m.2.1 = true → m.1 = true) ∧
      (d.1 = 1 → d.2.2 = 1 → m.2.2 = true → m.1 = true) ∧
      (d.2.1 = 1 → d.2.2 = 1 → m.2.2 = true → m.2.1 = true)) ∧
    (n < nsCount d →
      validateDimOp d (.dimensionality n) true s = .error (.unreachableDim n true)) := by
  have key := validate_named_add d s n hn hd1 hd2 hd3 hs1 hs2 hs3
  have hb := findMask_spec (decide (1 < d.1), decide (1 < d.2.1), decide (1 < d.2.2))
    n hn
  simp only at hb
  have hcnt := nsCount_eq_boolCount d
  constructor
  · intro hle
    obtain ⟨m, hfm, hmc, hsup1, hsup2, hsup3, hlow1, hlow2, hlow3⟩ := hb.1 (by omega)
    refine ⟨m, toDims (applyOp true d s m), ?_, ?_, ?_, ?_, ?_, ?_, ?_, ?_⟩
    · rw [key, hfm]
    · rw [nsCount_toDims_add d s m hd1 hd2 hd3 hs1 hs2 hs3, hmc]
    · intro h; exact hsup1 (by simpa using h)
    · intro h; exact hsup2 (by simpa using h)
    · intro h; exact hsup3 (by simpa using h)
    · intro e1 e2 hm
      exact hlow1 (by simp [e1]) (by simp [e2]) hm
    · intro e1 e3 hm
      exact hlow2 (by simp [e1]) (by simp [e3]) hm
    · intro e2 e3 hm
      exact hlow3 (by simp [e2]) (by simp [e3]) hm
  · intro hlt
    rw [key, hb.2 (by omega)]

/-- Concrete instance of `claim_C3_resolver`: class "1D" on dimensions
`(1, 1, 2)` for the growth direction keeps the populated z axis and adds no
new axis. -/
theorem claim_C3_resolver_witness :
    ∃ m nd, validateDimOp (1, 1, 2) (.dimensionality 1) true (1, 1, 1) = .ok (m, nd) ∧
      nsCount nd = 1 ∧
      (1 < (1, 1, 2).1 → m.1 = true) ∧ (1 < (1, 1, 2).2.1 → m.2.1 = true) ∧
      (1 < (1, 1, 2).2.2 → m.2.2 = true) ∧
      ((1, 1, 2).1 = 1 → (1, 1, 2).2.1 = 1 → m.2.1 = true → m.1 = true) ∧
      ((1, 1, 2).1 = 1 → (1, 1, 2).2.2 = 1 → m.2.2 = true → m.1 = true) ∧
      ((1, 1, 2).2.1 = 1 → (1, 1, 2).2.2 = 1 → m.2.2 = true → m.2.1 = true) :=
  (claim_C3_resolver (1, 1, 2) (1, 1, 1) 1 (by decide) (by decide) (by decide)
    (by decide) (by decide) (by decide) (by decide)).1 (by decide)

/-- Claim C3 counterexample: for the shrink direction (`cells_to_points`),
resolving class "0D" on dimensions `(1, 2, 1)` SELECTS the populated y axis
(mask `(false, true, false)`) and shrinks it back to a singleton,
succeeding with result `(1, 1, 1)` rather than failing with
`InvalidArgument` — contrary to the claim's "never selecting an
already-non-singleton axis for removal" and its failure condition.  (The
in-tree tests pin this: `cells_to_points(dimensionality='0D')` succeeds on
such grids.) -/
theorem claim_C3_counterexample :
    validateDimOp (1, 2, 1) (.dimensionality 0) false (1, 1, 1)
      = .ok ((false, true, false), (1, 1, 1)) := by decide


/-- A `(1, 2, 2)` grid carrying a cell array, on which the round-trip law
fails as stated. -/
def gridC1X : Grid :=
  { dims := (1, 2, 2), origin := (0, 0, 0), spacing := (1, 1, 1)
    pointData := [⟨"data", 1, [[0], [1], [2], [3]]⟩]
    cellData := [⟨"cd", 1, [[142]]⟩]
    active := none }

/-- A `(1, 2, 2)` point-only grid on which the amended round-trip law holds. -/
def gridC1W : Grid :=
  { dims := (1, 2, 2), origin := (3, -2, 5), spacing := (-1, 2, 3)
    pointData := [⟨"data", 1, [[0], [1], [2], [3]]⟩]
    cellData := []
    active := some "data" }


lemma cellDim_add_axis (dd : ℕ) (mm : Bool) (hd : 1 ≤ dd) (hu : mm = false → dd = 1) :
    cellDim (dd + if mm then 1 else 0) = dd := by
  cases mm <;> simp_all [cellDim]

lemma nCells_addDims (d : Dims3) (m : Mask)
    (hd1 : 1 ≤ d.1) (hd2 : 1 ≤ d.2.1) (hd3 : 1 ≤ d.2.2)
    (hu1 : m.1 = false → d.1 = 1) (hu2 : m.2.1 = false → d.2.1 = 1)
    (hu3 : m.2.2 = false → d.2.2 = 1) :
    nCellsOf (addDims d m) = nPointsOf d := by
  simp only [nCellsOf, nPointsOf, addDims, cellDim_add_axis d.1 m.1 hd1 hu1,
    cellDim_add_axis d.2.1 m.2.1 hd2 hu2, cellDim_add_axis d.2.2 m.2.2 hd3 hu3]

lemma subDims_addDims (d : Dims3) (m : Mask) :
    subDims (addDims d m) m = d := by
  obtain ⟨d1, d2, d3⟩ := d
  obtain ⟨a, b, c⟩ := m
  simp only [addDims, subDims]
  cases a <;> cases b <;> cases c <;> simp

lemma shiftOrigin_cancel (o sp : ℚ × ℚ × ℚ) (m : Mask) (c : ℚ) :
    shiftOrigin (shiftOrigin o sp m c) sp m (-c) = o := by
  obtain ⟨o1, o2, o3⟩ := o
  obtain ⟨s1, s2, s3⟩ := sp
  obtain ⟨a, b, cc⟩ := m
  simp only [shiftOrigin]
  cases a <;> cases b <;> cases cc <;> simp

lemma activeIfIn_restore (act : Option String) (ns : List String)
    (hact : ∀ a, act = some a → a ∈ ns) :
    activeIfIn (activeIfIn act ns) ns = act := by
  cases hb : act with
  | none => simp [activeIfIn]
  | some a => simp [activeIfIn, hact a hb]

/-- Claim C1 counterexample: the round-trip law fails as stated.  On the
grid with dimensions `(1, 2, 2)` (every masked axis has point-dimension
≥ 1) and mask `(true, false, false)`, `points_to_cells` itself fails with
the re-mesh sanity error (mapping 4 points onto 1 cell), so the composition
is an error, not the original grid; and even with the full mask, the
round trip of a grid carrying a cell array drops that array, so the result
does not have identical array values to the input. -/
theorem claim_C1_counterexample :
    ((pointsToCells gridC1X (.explicitMask (true, false, false)) none).bind
        fun g => cellsToPoints g (.explicitMask (true, false, false)) none)
      = .error (.remeshMismatch (1, 2, 2) (2, 2, 2) 4 1) ∧
    (((pointsToCells gridC1X (.explicitMask (true, true, true)) none).bind
        fun g => cellsToPoints g (.explicitMask (true, true, true)) none).map Grid.cellData
      = .ok [] ∧ gridC1X.cellData = [⟨"cd", 1, [[142]]⟩]) := by
  constructor
  · decide
  · constructor
    · decide
    · decide

/-- Claim C1 (amended): the round trip `cells_to_points ∘ points_to_cells`
with the same mask returns the input grid exactly — identical dimensions,
bounds and array values — provided every unmasked axis is a singleton (so
the re-mesh sanity cross-check passes; masked axes only need dimension
≥ 1), the grid carries no cell arrays (`points_to_cells` drops them), and
the active-scalars name, when set, names a point array. -/
theorem claim_C1_round_trip (g : Grid) (m : Mask)
    (hd1 : 1 ≤ g.dims.1) (hd2 : 1 ≤ g.dims.2.1) (hd3 : 1 ≤ g.dims.2.2)
    (hu1 : m.1 = false → g.dims.1 = 1) (hu2 : m.2.1 = false → g.dims.2.1 = 1)
    (hu3 : m.2.2 = false → g.dims.2.2 = 1)
    (hcell : g.cellData = [])
    (hact : ∀ a, g.active = some a → a ∈ names g.pointData) :
    (pointsToCells g (.explicitMask m) none).bind
      (fun g1 => cellsToPoints g1 (.explicitMask m) none) = .ok g := by
  obtain ⟨d, o, sp, pd, cd, act⟩ := g
  simp only at hd1 hd2 hd3 hu1 hu2 hu3 hcell hact
  subst hcell
  have h1 : pointsToCells ⟨d, o, sp, pd, [], act⟩ (.explicitMask m) none
      = .ok ⟨addDims d m, shiftOrigin o sp m (-(1 : ℚ) / 2), sp, [], pd,
          activeIfIn act (names pd)⟩ := by
    simp only [pointsToCells, pointsToCellsChecked,
      validate_explicit_add_one d m hd1 hd2 hd3]
    rw [if_pos (nCells_addDims d m hd1 hd2 hd3 hu1 hu2 hu3).symm]
  rw [h1]
  simp only [Except.bind]
  have ha1 : (addDims d m).1 = d.1 + (if m.1 then 1 else 0) := rfl
  have hsub : validateDimOp (addDims d m) (.explicitMask m) false (1, 1, 1)
      = .ok (m, subDims (addDims d m) m) := by
    refine validate_explicit_sub_one (addDims d m) m
      (fun h => by simp [addDims, h]; omega)
      (fun h => by simp [addDims, h]; omega)
      (fun h => by simp [addDims, h]; omega)
      (by cases hm : m.1 <;> (simp [addDims, hm]; try omega))
      (by cases hm : m.2.1 <;> (simp [addDims, hm]; try omega))
      (by cases hm : m.2.2 <;> (simp [addDims, hm]; try omega))

  simp only [cellsToPoints, cellsToPointsChecked, hsub]
  rw [if_pos]
  · rw [subDims_addDims d m]
    have hor : shiftOrigin (shiftOrigin o sp m (-(1 : ℚ) / 2)) sp m ((1 : ℚ) / 2) = o := by
      have h0 := shiftOrigin_cancel o sp m (-(1 : ℚ) / 2)
      rw [show -(-(1 : ℚ) / 2) = (1 : ℚ) / 2 by norm_num] at h0
      exact h0
    simp only [hor, activeIfIn_restore act (names pd) hact]
  · rw [subDims_addDims d m, nCells_addDims d m hd1 hd2 hd3 hu1 hu2 hu3]

/-- Concrete instance of `claim_C1_round_trip`: a `(1, 2, 2)` point-only
grid round-trips exactly through the mask `(false, true, true)`. -/
theorem claim_C1_round_trip_witness :
    (pointsToCells gridC1W (.explicitMask (false, true, true)) none).bind
      (fun g1 => cellsToPoints g1 (.explicitMask (false, true, true)) none) = .ok gridC1W :=
  claim_C1_round_trip gridC1W (false, true, true) (by decide) (by decide) (by decide)
    (by decide) (by decide) (by decide) (by decide) (by decide)

/-- Claim C4: arrays are remapped across the points↔cells conversion: with
no scalars selection, every point array of the input reappears — name,
component count and values untouched — as a cell array of the output of
`points_to_cells` (and symmetrically for `cells_to_points`), arrays of the
non-source domain are absent from the output, the active-scalars name is
preserved identically whenever its array survives, and explicitly selecting
a scalars array bound to the wrong domain fails with an `InvalidArgument`
error naming the offending array and the expected domain. -/
theorem claim_C4_array_remap (g : Grid) (m : Mask) (sc : String) :
    (∀ g', pointsToCells g (.explicitMask m) none = .ok g' →
      g'.cellData = g.pointData ∧ g'.pointData = [] ∧
      (∀ a, g.active = some a → a ∈ names g.pointData → g'.active = some a)) ∧
    (∀ g', cellsToPoints g (.explicitMask m) none = .ok g' →
      g'.pointData = g.cellData ∧ g'.cellData = [] ∧
      (∀ a, g.active = some a → a ∈ names g.cellData → g'.active = some a)) ∧
    ((names g.pointData).contains sc = false → (names g.cellData).contains sc = true →
      pointsToCells g (.explicitMask m) (some sc) = .error (.invalidScalars sc true)) ∧
    ((names g.cellData).contains sc = false → (names g.pointData).contains sc = true →
      cellsToPoints g (.explicitMask m) (some sc) = .error (.invalidScalars sc false)) := by
  refine ⟨?_, ?_, ?_, ?_⟩
  · intro g' h
    simp only [pointsToCells, pointsToCellsChecked] at h
    split at h
    · exact absurd h (by simp)
    · split at h
      · replace h := (Except.ok.injEq _ _).mp h
        subst h
        refine ⟨rfl, rfl, ?_⟩
        intro a ha hmem
        simp only [activeIfIn, ha]
        rw [if_pos (List.elem_eq_true_of_mem hmem)]
      · exact absurd h (by simp)
  · intro g' h
    simp only [cellsToPoints, cellsToPointsChecked] at h
    split at h
    · exact absurd h (by simp)
    · split at h
      · replace h := (Except.ok.injEq _ _).mp h
        subst h
        refine ⟨rfl, rfl, ?_⟩
        intro a ha hmem
        simp only [activeIfIn, ha]
        rw [if_pos (List.elem_eq_true_of_mem hmem)]
      · exact absurd h (by simp)
  · intro h1 h2
    simp only [pointsToCells, h1, h2, Bool.false_eq_true, if_false, if_true]
  · intro h1 h2
    simp only [cellsToPoints, h1, h2, Bool.false_eq_true, if_false, if_true]

/-- A grid with two point arrays and one cell array used to instantiate
`claim_C4_array_remap`. -/
def gridC4W : Grid :=
  { dims := (2, 2, 2), origin := (0, 0, 0), spacing := (1, 1, 1)
    pointData := [⟨"image", 1, List.replicate 8 [99]⟩, ⟨"other", 1, List.replicate 8 [42]⟩]
    cellData := [⟨"cd", 1, [[142]]⟩]
    active := some "image" }

/-- Concrete instance of `claim_C4_array_remap`: converting the `(2, 2, 2)`
grid with the full mask moves both point arrays to cell data, keeps the
active name, and selecting the cell array `"cd"` as scalars fails naming it
and the expected point domain. -/
theorem claim_C4_array_remap_witness :
    (∃ g', pointsToCells gridC4W (.explicitMask (true, true, true)) none = .ok g' ∧
      g'.cellData = gridC4W.pointData ∧ g'.pointData = [] ∧
      (∀ a, gridC4W.active = some a → a ∈ names gridC4W.pointData → g'.active = some a)) ∧
    pointsToCells gridC4W (.explicitMask (true, true, true)) (some "cd")
      = .error (.invalidScalars "cd" true) :=
  ⟨⟨_, rfl, (claim_C4_array_remap gridC4W (true, true, true) "cd").1 _ rfl⟩,
   (claim_C4_array_remap gridC4W (true, true, true) "cd").2.2.1 (by decide) (by decide)⟩

/-- Claim C2: for every grid (dimensions ≥ 1) and resolved (explicit) mask,
`points_to_cells` produces output dimension `dims[i] + 1` on each masked
axis and leaves unmasked axes unchanged; `cells_to_points` produces
`dims[i] - 1` on each masked axis and leaves unmasked axes unchanged, and
fails with an `InvalidArgument` error whenever the subtraction would
produce a dimension below 1. -/
theorem claim_C2_dimension_rule (g : Grid) (m : Mask)
    (h1 : 1 ≤ g.dims.1) (h2 : 1 ≤ g.dims.2.1) (h3 : 1 ≤ g.dims.2.2) :
    (∀ g', pointsToCells g (.explicitMask m) none = .ok g' → g'.dims = addDims g.dims m) ∧
    (∀ g', cellsToPoints g (.explicitMask m) none = .ok g' → g'.dims = subDims g.dims m) ∧
    (((m.1 = true ∧ g.dims.1 < 2) ∨ (m.2.1 = true ∧ g.dims.2.1 < 2) ∨
        (m.2.2 = true ∧ g.dims.2.2 < 2)) →
      ∃ e, cellsToPoints g (.explicitMask m) none = .error e ∧ e.isTypeError = false) := by
  refine ⟨?_, ?_, ?_⟩
  · intro g' h
    simp only [pointsToCells, pointsToCellsChecked,
      validate_explicit_add_one g.dims m h1 h2 h3] at h
    split at h
    · exact (Except.ok.injEq _ _).mp h ▸ rfl
    · exact absurd h (by simp)
  · intro g' h
    by_cases hok : (m.1 = true ∧ g.dims.1 < 2) ∨ (m.2.1 = true ∧ g.dims.2.1 < 2) ∨
        (m.2.2 = true ∧ g.dims.2.2 < 2)
    · simp only [cellsToPoints, cellsToPointsChecked,
        validate_explicit_sub_err g.dims m hok] at h
      exact absurd h (by simp)
    · push_neg at hok
      simp only [cellsToPoints, cellsToPointsChecked,
        validate_explicit_sub_one g.dims m
          (fun hm => by have := hok.1 hm; omega)
          (fun hm => by have := hok.2.1 hm; omega)
          (fun hm => by have := hok.2.2 hm; omega) h1 h2 h3] at h
      split at h
      · exact (Except.ok.injEq _ _).mp h ▸ rfl
      · exact absurd h (by simp)
  · intro hbad
    refine ⟨.dimsNonPositive m (applyOp false g.dims (1, 1, 1) m), ?_, rfl⟩
    simp only [cellsToPoints, cellsToPointsChecked, validate_explicit_sub_err g.dims m hbad]

/-- A bare `(1, 2, 2)` grid used to instantiate `claim_C2_dimension_rule`. -/
def gridC2W : Grid :=
  { dims := (1, 2, 2), origin := (0, 0, 0), spacing := (1, 1, 1)
    pointData := [], cellData := [], active := none }

/-- Concrete instance of `claim_C2_dimension_rule`: on a `(1, 2, 2)` grid
with mask `(true, false, false)`, cells→points fails with an
`InvalidArgument` error because the x dimension would drop below 1. -/
theorem claim_C2_dimension_rule_witness :
    ∃ e, cellsToPoints gridC2W (.explicitMask (true, false, false)) none = .error e ∧
      e.isTypeError = false :=
  (claim_C2_dimension_rule gridC2W (true, false, false)
    (by decide) (by decide) (by decide)).2.2 (by decide)

lemma validate_explicit_add (d : Dims3) (m : Mask) (s : Dims3)
    (h1 : 1 ≤ d.1) (h2 : 1 ≤ d.2.1) (h3 : 1 ≤ d.2.2) :
    validateDimOp d (.explicitMask m) true s
      = .ok (m, (d.1 + (if m.1 then s.1 else 0), d.2.1 + (if m.2.1 then s.2.1 else 0),
          d.2.2 + (if m.2.2 then s.2.2 else 0))) := by
  obtain ⟨d1, d2, d3⟩ := d
  obtain ⟨a, b, c⟩ := m
  simp only at h1 h2 h3
  simp only [validateDimOp]
  split
  · simp only [applyOp, axOp, toDims, Except.ok.injEq, Prod.mk.injEq]
    refine ⟨trivial, ?_, ?_, ?_⟩ <;> cases a <;> cases b <;> cases c <;> simp <;> omega
  · next h =>
      exfalso
      simp only [allPos, applyOp, axOp, Bool.and_eq_true, decide_eq_true_eq] at h
      cases a <;> cases b <;> cases c <;> simp at h <;> omega

lemma normalizePad_nonneg (l : List ℤ) (bx ax bY ay bz az : ℤ)
    (hn : normalizePad l = some (bx, ax, bY, ay, bz, az))
    (hl : ∀ v ∈ l, 0 ≤ v) :
    0 ≤ bx ∧ 0 ≤ ax ∧ 0 ≤ bY ∧ 0 ≤ ay ∧ 0 ≤ bz ∧ 0 ≤ az := by
  rcases l with _ | ⟨v1, _ | ⟨v2, _ | ⟨v3, _ | ⟨v4, _ | ⟨v5, _ | ⟨v6, rest⟩⟩⟩⟩⟩⟩ <;>
    simp only [normalizePad, Option.some.injEq, Prod.mk.injEq] at hn
  · exact absurd hn (by simp)
  · obtain ⟨e1, e2, e3, e4, e5, e6⟩ := hn
    subst e1; subst e2; subst e3; subst e4; subst e5; subst e6
    have := hl v1 (by simp)
    omega
  · obtain ⟨e1, e2, e3, e4, e5, e6⟩ := hn
    subst e1; subst e2; subst e3; subst e4; subst e5; subst e6
    have q1 := hl v1 (by simp)
    have q2 := hl v2 (by simp)
    omega
  · obtain ⟨e1, e2, e3, e4, e5, e6⟩ := hn
    subst e1; subst e2; subst e3; subst e4; subst e5; subst e6
    have q1 := hl v1 (by simp)
    have q2 := hl v2 (by simp)
    have q3 := hl v3 (by simp)
    omega
  · obtain ⟨e1, e2, e3, e4, e5, e6⟩ := hn
    subst e1; subst e2; subst e3; subst e4; subst e5; subst e6
    have q1 := hl v1 (by simp)
    have q2 := hl v2 (by simp)
    have q3 := hl v3 (by simp)
    have q4 := hl v4 (by simp)
    omega
  · exact absurd hn (by simp)
  · rcases rest with _ | ⟨v7, rest2⟩
    · simp only [normalizePad, Option.some.injEq, Prod.mk.injEq] at hn
      obtain ⟨e1, e2, e3, e4, e5, e6⟩ := hn
      subst e1; subst e2; subst e3; subst e4; subst e5; subst e6
      have q1 := hl v1 (by simp)
      have q2 := hl v2 (by simp)
      have q3 := hl v3 (by simp)
      have q4 := hl v4 (by simp)
      have q5 := hl v5 (by simp)
      have q6 := hl v6 (by simp)
      omega
    · exact absurd hn (by simp)

/-- Claim C5: padding geometry.  For every grid (dimensions ≥ 1), explicit
mask, and `pad_size` that normalizes to the before/after pairs
`(bx, ax, bY, ay, bz, az)`: if `pad_image` succeeds then each masked axis
has new dimension `old + before + after` and its origin translated by
`-before * spacing` (so the original samples keep their physical
coordinates), the spacing is unchanged, and every unmasked axis keeps its
dimension and bounds. -/
theorem claim_C5_pad_geometry (g g' : Grid) (raw : PadSizeRaw) (pv : PadValue)
    (scalars : Option String) (allScalars : Bool) (m : Mask)
    (bx ax bY ay bz az : ℤ)
    (hd1 : 1 ≤ g.dims.1) (hd2 : 1 ≤ g.dims.2.1) (hd3 : 1 ≤ g.dims.2.2)
    (hnorm : normalizePad (raw.values.map Rat.num) = some (bx, ax, bY, ay, bz, az))
    (h : padImage g raw pv scalars allScalars (.explicitMask m) = .ok g') :
    g'.dims = (g.dims.1 + (if m.1 then bx.toNat + ax.toNat else 0),
               g.dims.2.1 + (if m.2.1 then bY.toNat + ay.toNat else 0),
               g.dims.2.2 + (if m.2.2 then bz.toNat + az.toNat else 0)) ∧
    g'.spacing = g.spacing ∧
    g'.origin = (g.origin.1 - ((if m.1 then bx.toNat else 0 : ℕ) : ℚ) * g.spacing.1,
                 g.origin.2.1 - ((if m.2.1 then bY.toNat else 0 : ℕ) : ℚ) * g.spacing.2.1,
                 g.origin.2.2 - ((if m.2.2 then bz.toNat else 0 : ℕ) : ℚ) * g.spacing.2.2) ∧
    (m.1 = false → g'.dims.1 = g.dims.1 ∧ g'.bounds.1 = g.bounds.1) ∧
    (m.2.1 = false → g'.dims.2.1 = g.dims.2.1 ∧ g'.bounds.2.1 = g.bounds.2.1) ∧
    (m.2.2 = false → g'.dims.2.2 = g.dims.2.2 ∧ g'.bounds.2.2 = g.bounds.2.2) := by
  simp only [padImage] at h
  split at h
  · exact absurd h (by simp)
  · split at h
    · exact absurd h (by simp)
    · split at h
      · next heq =>
          rw [hnorm] at heq
          exact absurd heq (by simp)
      · rename_i bx2 ax2 bY2 ay2 bz2 az2 heq
        rw [hnorm] at heq
        simp only [Option.some.injEq, Prod.mk.injEq] at heq
        obtain ⟨e1, e2, e3, e4, e5, e6⟩ := heq
        subst e1; subst e2; subst e3; subst e4; subst e5; subst e6
        split at h
        · exact absurd h (by simp)
        · next hneg =>
            have hnn : ∀ v ∈ raw.values.map Rat.num, 0 ≤ v := by
              intro v hv
              have := List.find?_eq_none.mp hneg v hv
              simpa using this
            obtain ⟨n1, n2, n3, n4, n5, n6⟩ :=
              normalizePad_nonneg _ bx ax bY ay bz az hnorm hnn
            simp only [padChecked] at h
            split at h
            · exact absurd h (by simp)
            · split at h
              · rw [validate_explicit_add g.dims m _ hd1 hd2 hd3] at h
                simp only [padBuild] at h
                split at h
                · exact absurd h (by simp)
                · replace h := (Except.ok.injEq _ _).mp h
                  subst h
                  refine ⟨?_, rfl, ?_, ?_, ?_, ?_⟩
                  · simp only [Prod.mk.injEq]
                    refine ⟨?_, ?_, ?_⟩ <;> cases hm : m.1 <;> cases hm2 : m.2.1 <;>
                      cases hm3 : m.2.2 <;> simp <;> omega
                  · simp only [beforePads]
                  · intro hm
                    refine ⟨by simp [hm], ?_⟩
                    simp only [Grid.bounds, axisBounds, beforePads, hm]
                    norm_num
                  · intro hm
                    refine ⟨by simp [hm], ?_⟩
                    simp only [Grid.bounds, axisBounds, beforePads, hm]
                    norm_num
                  · intro hm
                    refine ⟨by simp [hm], ?_⟩
                    simp only [Grid.bounds, axisBounds, beforePads, hm]
                    norm_num
              · split at h
                · exact absurd h (by simp)
                · exact absurd h (by simp)

/-- A `(1, 1, 1)` grid with one point scalar used to instantiate the pad
geometry claim. -/
def gridC5W : Grid :=
  { dims := (1, 1, 1), origin := (0, 0, 0), spacing := (1, 1, 1)
    pointData := [⟨"v", 1, [[99]]⟩], cellData := [], active := some "v" }

/-- Claim C7 counterexample: a `pad_size` of exactly 2 integers is NOT a
before/after pair on a single participating axis.  On a `(1, 1, 1)` grid
(all three axes participating), `pad_size (1, 0)` is accepted and pads the
x axis symmetrically on both sides, producing dimensions `(3, 1, 1)` —
under the claim's reading it would pad one axis before-only and produce 2
points on that axis. -/
theorem claim_C7_counterexample :
    (padImage gridC5W ⟨1, [1, 0]⟩ (.constant [7]) none false
        (.explicitMask (true, true, true))).map Grid.dims
      = (.ok (3, 1, 1) : Except ImgError Dims3) ∧
    ((3, 1, 1) : Dims3) ≠ (2, 1, 1) := by
  exact ⟨by decide, by decide⟩

lemma all_qInt_two_six (a b : ℚ) :
    ([a, a, b, b, 0, 0] : List ℚ).all qInt = ([a, b] : List ℚ).all qInt := by
  have h0 : qInt 0 = true := by decide
  cases ha : qInt a <;> cases hb : qInt b <;> simp [ha, hb, h0]

/-- Claim C7 (amended): a `pad_size` of exactly 2 integers `[a, b]` is
applied as symmetric per-axis padding — `a` pads the X axis on both sides
and `b` pads the Y axis on both sides — i.e. the call behaves identically
to the 6-value `pad_size` `[a, a, b, b, 0, 0]`, for every grid, pad value,
scalars selection and dimensionality argument. -/
theorem claim_C7_two_value_pad_size (g : Grid) (a b : ℚ) (pv : PadValue)
    (scalars : Option String) (allScalars : Bool) (spec : OperationMask) :
    padImage g ⟨1, [a, b]⟩ pv scalars allScalars spec
      = padImage g ⟨1, [a, a, b, b, 0, 0]⟩ pv scalars allScalars spec := by
  have hnum0 : (0 : ℚ).num = 0 := rfl
  simp only [padImage, all_qInt_two_six]
  rw [if_neg (show ¬ ((1 : ℕ) ≠ 1) by simp), if_neg (show ¬ ((1 : ℕ) ≠ 1) by simp)]
  by_cases hq : ([a, b] : List ℚ).all qInt = true
  · rw [if_neg (not_not_intro hq), if_neg (not_not_intro hq)]
    simp only [List.map_cons, List.map_nil, hnum0, normalizePad]
    by_cases hA : a.num < 0
    · simp [List.find?, hA]
    · by_cases hB : b.num < 0
      · simp [List.find?, hA, hB]
      · simp [List.find?, hA, hB]
  · rw [if_pos hq, if_pos hq]

/-- Claim C9: a vector pad value whose component count mismatches a target
array is an atomic failure.  With `pad_all_scalars = true`, a vector
(non-scalar) constant pad value, and any point array whose component count
differs from the vector's, the whole `pad_image` call fails with an
`InvalidArgument` error naming the offending array and both component
counts, and no output grid is produced (the modelled operations are pure
functions of an immutable input, so the input's arrays are untouched by a
failed call). -/
theorem claim_C9_pad_vector_mismatch (g : Grid) (raw : PadSizeRaw) (v : List ℚ)
    (scalars : Option String) (spec : OperationMask)
    (bx ax bY ay bz az : ℤ) (sName : String) (mp : Mask) (nd : Dims3) (arr : DataArray)
    (hr : raw.ndim = 1) (hi : raw.values.all qInt = true)
    (hnorm : normalizePad (raw.values.map Rat.num) = some (bx, ax, bY, ay, bz, az))
    (hneg : (raw.values.map Rat.num).find? (fun x => decide (x < 0)) = none)
    (hres : (match scalars with | some nm => some nm | none => g.active) = some sName)
    (hcont : (names g.pointData).contains sName = true)
    (hval : validateDimOp g.dims spec true
      ((bx + ax).toNat, (bY + ay).toNat, (bz + az).toNat) = .ok (mp, nd))
    (hv : v.length ≠ 1)
    (hmem : arr ∈ g.pointData) (hcomp : arr.nComp ≠ v.length) :
    ∃ a ∈ g.pointData, a.nComp ≠ v.length ∧
      padImage g raw (.constant v) scalars true spec
        = .error (.padComponentMismatch a.name v.length a.nComp) ∧
      (ImgError.padComponentMismatch a.name v.length a.nComp).isTypeError = false ∧
      ∀ g', padImage g raw (.constant v) scalars true spec ≠ .ok g' := by
  have hfind : ∃ a, g.pointData.find? (fun t => decide (¬ t.nComp = v.length)) = some a := by
    have : (g.pointData.find? (fun t => decide (¬ t.nComp = v.length))).isSome = true := by
      rw [List.find?_isSome]
      exact ⟨arr, hmem, by simpa using hcomp⟩
    exact Option.isSome_iff_exists.mp this
  obtain ⟨a, hfa⟩ := hfind
  have hamem : a ∈ g.pointData := List.mem_of_find?_eq_some hfa
  have hacomp : a.nComp ≠ v.length := by simpa using List.find?_some hfa
  have hpad : padImage g raw (.constant v) scalars true spec
      = .error (.padComponentMismatch a.name v.length a.nComp) := by
    simp only [padImage]
    rw [if_neg (by simp [hr]), if_neg (by simp [hi]), hnorm, hneg]
    simp only [padChecked, hres]
    rw [if_pos hcont, hval]
    simp only [padBuild, compCheck]
    rw [if_neg (by simpa using hv)]
    simp only [if_pos, if_true]
    rw [hfa]
    rfl
  exact ⟨a, hamem, hacomp, hpad, rfl, fun g' hc => by rw [hpad] at hc; exact absurd hc (by simp)⟩

/-- A `(1, 1, 1)` grid with a 4-component and a 1-component point array. -/
def gridC9W : Grid :=
  { dims := (1, 1, 1), origin := (0, 0, 0), spacing := (1, 1, 1)
    pointData := [⟨"scalars", 4, [[10, 20, 30, 40]]⟩, ⟨"single", 1, [[5]]⟩]
    cellData := [], active := some "scalars" }

/-- Concrete instance of `claim_C9_pad_vector_mismatch`: padding all scalars
with the 4-component value `(0, 0, 0, 0)` fails on the 1-component array
`"single"`, naming it and both counts, and yields no output grid. -/
theorem claim_C9_pad_vector_mismatch_witness :
    ∃ a ∈ gridC9W.pointData, a.nComp ≠ ([0, 0, 0, 0] : List ℚ).length ∧
      padImage gridC9W ⟨1, [1]⟩ (.constant [0, 0, 0, 0]) none true
          (.explicitMask (true, true, true))
        = .error (.padComponentMismatch a.name ([0, 0, 0, 0] : List ℚ).length a.nComp) ∧
      (ImgError.padComponentMismatch a.name ([0, 0, 0, 0] : List ℚ).length a.nComp).isTypeError
        = false ∧
      ∀ g', padImage gridC9W ⟨1, [1]⟩ (.constant [0, 0, 0, 0]) none true
          (.explicitMask (true, true, true)) ≠ .ok g' :=
  claim_C9_pad_vector_mismatch gridC9W ⟨1, [1]⟩ [0, 0, 0, 0] none
    (.explicitMask (true, true, true)) 1 1 1 1 1 1 "scalars" (true, true, true) (3, 3, 3)
    ⟨"single", 1, [[5]]⟩ rfl (by decide) (by decide) (by decide) rfl (by decide) (by decide)
    (by decide) (by decide) (by decide)

lemma names_map_padArrayD (l : List DataArray) (d nd b : Dims3) (pv : PadValue) :
    names (l.map (padArrayD d nd b pv)) = names l := by
  simp only [names, List.map_map]
  exact List.map_congr_left fun a _ => rfl

lemma filter_name_eq_single (l : List DataArray) (arr : DataArray)
    (hmem : arr ∈ l) (hnd : (names l).Nodup) :
    l.filter (fun a => a.name == arr.name) = [arr] := by
  induction l with
  | nil => cases hmem
  | cons b t ih =>
      simp only [names, List.map_cons, List.nodup_cons] at hnd
      obtain ⟨hbn, hnd2⟩ := hnd
      rcases List.mem_cons.mp hmem with hb | hmt
      · subst hb
        rw [List.filter_cons_of_pos (by simp)]
        have hrest : t.filter (fun a => a.name == arr.name) = [] := by
          rw [List.filter_eq_nil_iff]
          intro a hat
          simp only [beq_iff_eq]
          intro he
          exact hbn (he ▸ List.mem_map_of_mem DataArray.name hat)
        rw [hrest]
      · have hbne : b.name ≠ arr.name := by
          intro he
          exact hbn (he ▸ List.mem_map_of_mem DataArray.name hmt)
        rw [List.filter_cons_of_neg (by simpa using hbne)]
        exact ih hmt hnd2

/-- Claim C10 (implicit): when `pad_all_scalars` is false, a successful
`pad_image` call returns exactly one array — the selected (or active) point
scalar — for every valid `pad_size` including zero; all other point arrays
and all cell arrays are absent from the output. -/
theorem claim_C10_pad_single_array (g g' : Grid) (raw : PadSizeRaw) (pv : PadValue)
    (scalars : Option String) (spec : OperationMask)
    (hnd : (names g.pointData).Nodup)
    (h : padImage g raw pv scalars false spec = .ok g') :
    g'.cellData = [] ∧
    ∃ sName, (match scalars with | some nm => some nm | none => g.active) = some sName ∧
      g'.active = some sName ∧ names g'.pointData = [sName] := by
  simp only [padImage] at h
  split at h
  · exact absurd h (by simp)
  · split at h
    · exact absurd h (by simp)
    · split at h
      · exact absurd h (by simp)
      · rename_i bx ax bY ay bz az heq
        split at h
        · exact absurd h (by simp)
        · simp only [padChecked] at h
          split at h
          · exact absurd h (by simp)
          · rename_i sName hres
            split at h
            · rename_i hcont
              split at h
              · exact absurd h (by simp)
              · rename_i mp nd hval
                simp only [padBuild, Bool.false_eq_true, if_false] at h
                split at h
                · exact absurd h (by simp)
                · replace h := (Except.ok.injEq _ _).mp h
                  subst h
                  refine ⟨rfl, sName, hres, rfl, ?_⟩
                  have hsmem : sName ∈ names g.pointData :=
                    List.mem_of_elem_eq_true hcont
                  obtain ⟨arr, harr, hname⟩ := List.mem_map.mp hsmem
                  rw [names_map_padArrayD, ← hname,
                    filter_name_eq_single g.pointData arr harr hnd]
                  simp [names]
            · split at h <;> exact absurd h (by simp)

/-- Concrete instance of `claim_C10_pad_single_array`: padding the
two-point-array grid with `pad_all_scalars = false` keeps exactly the
active `"image"` array and drops the `"other"` point array and the `"cd"`
cell array. -/
theorem claim_C10_pad_single_array_witness :
    ∃ g', padImage gridC4W ⟨1, [1]⟩ (.constant [7]) none false
        (.explicitMask (true, true, true)) = .ok g' ∧
      g'.cellData = [] ∧ g'.active = some "image" ∧ names g'.pointData = ["image"] := by
  obtain ⟨hcd, sName, hres, hact, hnames⟩ :=
    claim_C10_pad_single_array gridC4W _ ⟨1, [1]⟩ (.constant [7]) none
      (.explicitMask (true, true, true)) (by decide) rfl
  have hs : sName = "image" := by
    simpa [gridC4W] using hres.symm
  subst hs
  exact ⟨_, rfl, hcd, hact, hnames⟩

lemma map_getD_range (l : List Vec) :
    (List.range l.length).map (fun t => l.getD t []) = l := by
  induction l with
  | nil => simp
  | cons x t ih =>
      rw [List.length_cons, List.range_succ_eq_map, List.map_cons, List.map_map]
      have hface : List.map ((fun k => (x :: t).getD k []) ∘ Nat.succ) (List.range t.length)
          = List.map (fun k => t.getD k []) (List.range t.length) :=
        List.map_congr_left fun k _ => by simp [Function.comp]
      rw [hface, ih]
      simp

lemma flatIdx_decode (nx ny t : ℕ) :
    flatIdx nx ny (t % nx) (t / nx % ny) (t / nx / ny) = t := by
  unfold flatIdx
  have h1 : t / nx % ny + ny * (t / nx / ny) = t / nx := Nat.mod_add_div _ _
  rw [h1, Nat.mod_add_div]

lemma padVals_zero (d : Dims3) (pvv : List ℚ) (arr : DataArray)
    (h1 : 1 ≤ d.1) (h2 : 1 ≤ d.2.1) (_h3 : 1 ≤ d.2.2)
    (hlen : arr.values.length = d.1 * d.2.1 * d.2.2) :
    padVals d d (0, 0, 0) (.constant pvv) arr = arr.values := by
  unfold padVals
  rw [← hlen]
  have key : ∀ t ∈ List.range arr.values.length,
      padSample d (0, 0, 0) (.constant pvv) arr (t % d.1) (t / d.1 % d.2.1)
          (t / d.1 / d.2.1)
        = arr.values.getD t [] := by
    intro t ht
    have htl : t < arr.values.length := List.mem_range.mp ht
    have hbound : t < d.1 * d.2.1 * d.2.2 := hlen ▸ htl
    have hi : t % d.1 < d.1 := Nat.mod_lt _ (by omega)
    have hj : t / d.1 % d.2.1 < d.2.1 := Nat.mod_lt _ (by omega)
    have hk : t / d.1 / d.2.1 < d.2.2 := by
      rw [Nat.div_div_eq_div_mul]
      exact Nat.div_lt_of_lt_mul hbound
    simp only [padSample, Nat.cast_zero, sub_zero]
    rw [if_pos ⟨Int.natCast_nonneg _, by exact_mod_cast hi, Int.natCast_nonneg _,
      by exact_mod_cast hj, Int.natCast_nonneg _, by exact_mod_cast hk⟩]
    simp only [Int.toNat_natCast]
    rw [flatIdx_decode]
  rw [List.map_congr_left key, map_getD_range]

lemma padArrayD_zero (d : Dims3) (pvv : List ℚ) (arr : DataArray)
    (h1 : 1 ≤ d.1) (h2 : 1 ≤ d.2.1) (h3 : 1 ≤ d.2.2)
    (hlen : arr.values.length = d.1 * d.2.1 * d.2.2) :
    padArrayD d d (0, 0, 0) (.constant pvv) arr = arr := by
  unfold padArrayD
  rw [padVals_zero d pvv arr h1 h2 h3 hlen]

lemma validate_preserve_zero (d : Dims3)
    (h1 : 1 ≤ d.1) (h2 : 1 ≤ d.2.1) (h3 : 1 ≤ d.2.2) :
    validateDimOp d .preserve true (0, 0, 0)
      = .ok ((decide (1 < d.1), decide (1 < d.2.1), decide (1 < d.2.2)), d) := by
  simp only [validateDimOp]
  have hap : applyOp true d (0, 0, 0)
      (decide (1 < d.1), decide (1 < d.2.1), decide (1 < d.2.2))
      = ((d.1 : ℤ), (d.2.1 : ℤ), (d.2.2 : ℤ)) := by
    simp only [applyOp, axOp]
    norm_num
  rw [hap]
  rw [if_pos (by simp only [allPos, Bool.and_eq_true, decide_eq_true_eq]; omega)]
  simp [toDims]

/-- Evaluation of `pad_image` with an all-zero `pad_size` under the default
`"preserve"` dimensionality: the output has the same dimensions, origin and
spacing, keeps every point array with identical values (all point arrays
are targets since `pad_all_scalars` is true), drops all cell arrays, and
keeps the active point scalars. -/
lemma pad_zero_eval (g : Grid) (pvv : List ℚ) (a : String)
    (hd1 : 1 ≤ g.dims.1) (hd2 : 1 ≤ g.dims.2.1) (hd3 : 1 ≤ g.dims.2.2)
    (hact : g.active = some a) (hmem : (names g.pointData).contains a = true)
    (hlen : ∀ arr ∈ g.pointData, arr.values.length = nPointsOf g.dims)
    (hpv : pvv.length = 1) :
    padImage g ⟨1, [0]⟩ (.constant pvv) none true .preserve
      = .ok { dims := g.dims, origin := g.origin, spacing := g.spacing,
              pointData := g.pointData, cellData := [], active := some a } := by
  have hq : ([(0 : ℚ)] : List ℚ).all qInt = true := by decide
  simp only [padImage]
  rw [if_neg (by simp), if_neg (not_not_intro hq)]
  simp only [List.map_cons, List.map_nil, show (0 : ℚ).num = 0 from rfl, normalizePad]
  rw [show List.find? (fun v => decide (v < 0)) ([0] : List ℤ) = none by decide]
  simp only [padChecked, hact]
  rw [if_pos hmem]
  rw [show (((0 : ℤ) + 0).toNat, ((0 : ℤ) + 0).toNat, ((0 : ℤ) + 0).toNat) = ((0, 0, 0) : Dims3)
    from rfl]
  rw [validate_preserve_zero g.dims hd1 hd2 hd3]
  simp only [padBuild, compCheck, if_pos, if_true]
  rw [if_pos (by simpa using hpv)]
  have hbp : beforePads (decide (1 < g.dims.1), decide (1 < g.dims.2.1),
      decide (1 < g.dims.2.2)) 0 0 0 = ((0, 0, 0) : Dims3) := by
    simp [beforePads]
  rw [hbp]
  have hpd : g.pointData.map (padArrayD g.dims g.dims (0, 0, 0) (.constant pvv))
      = g.pointData := by
    calc g.pointData.map (padArrayD g.dims g.dims (0, 0, 0) (.constant pvv))
        = g.pointData.map (fun arr => arr) :=
          List.map_congr_left fun arr ha =>
            padArrayD_zero g.dims pvv arr hd1 hd2 hd3 (hlen arr ha)
      _ = g.pointData := List.map_id' g.pointData
  rw [hpd]
  simp

/-- A `(1, 1, 1)` grid with two point arrays and a cell array, as the
fixture of the zero-pad tests. -/
def gridC6X : Grid :=
  { dims := (1, 1, 1), origin := (0, 0, 0), spacing := (1, 1, 1)
    pointData := [⟨"image", 1, [[99]]⟩, ⟨"other", 1, [[42]]⟩]
    cellData := [⟨"data", 1, [[142]]⟩]
    active := some "image" }

/-- Claim C6 counterexample: `pad_image` with `pad_size = 0` does NOT
return a grid identical to the input whenever the input carries any cell
array — the output's cell data is empty, so its array values differ from
the input's. -/
theorem claim_C6_counterexample :
    padImage gridC6X ⟨1, [0]⟩ (.constant [0]) none true .preserve ≠ .ok gridC6X := by
  rw [pad_zero_eval gridC6X [0] "image" (by decide) (by decide) (by decide) rfl
    (by decide) (by decide) (by decide)]
  decide

/-- Claim C6 (amended): `pad_image` with `pad_size = 0` on every axis (with
`pad_all_scalars = true` and the active scalars a point array) returns a
grid with identical dimensions, bounds (origin and spacing), and identical
values for every point array; only the arrays that never survive a pad —
the cell arrays — are absent, and non-selected point arrays would likewise
be absent with `pad_all_scalars = false`. -/
theorem claim_C6_zero_pad (g : Grid) (pvv : List ℚ) (a : String)
    (hd1 : 1 ≤ g.dims.1) (hd2 : 1 ≤ g.dims.2.1) (hd3 : 1 ≤ g.dims.2.2)
    (hact : g.active = some a) (hmem : (names g.pointData).contains a = true)
    (hlen : ∀ arr ∈ g.pointData, arr.values.length = nPointsOf g.dims)
    (hpv : pvv.length = 1) :
    padImage g ⟨1, [0]⟩ (.constant pvv) none true .preserve
      = .ok { dims := g.dims, origin := g.origin, spacing := g.spacing,
              pointData := g.pointData, cellData := [], active := some a } :=
  pad_zero_eval g pvv a hd1 hd2 hd3 hact hmem hlen hpv

/-- Concrete instance of `claim_C6_zero_pad`: the zero pad of the two-array
grid returns it unchanged except for the dropped cell array. -/
theorem claim_C6_zero_pad_witness :
    padImage gridC6X ⟨1, [0]⟩ (.constant [0]) none true .preserve
      = .ok { dims := (1, 1, 1), origin := (0, 0, 0), spacing := (1, 1, 1),
              pointData := [⟨"image", 1, [[99]]⟩, ⟨"other", 1, [[42]]⟩],
              cellData := [], active := some "image" } :=
  claim_C6_zero_pad gridC6X [0] "image" (by decide) (by decide) (by decide) rfl
    (by decide) (by decide) (by decide)

lemma normalizePad_eq_none (l : List ℤ) :
    normalizePad l = none
      ↔ ¬ (l.length = 1 ∨ l.length = 2 ∨ l.length = 3 ∨ l.length = 4 ∨ l.length = 6) := by
  rcases l with _ | ⟨v1, _ | ⟨v2, _ | ⟨v3, _ | ⟨v4, _ | ⟨v5, _ | ⟨v6, rest⟩⟩⟩⟩⟩⟩ <;>
    simp [normalizePad]
  rcases rest with _ | ⟨v7, rest2⟩
  · simp [normalizePad]
  · simp [normalizePad]

/-- Claim C8: `pad_size` validation.  A `pad_size` of rank other than 1
fails with an `InvalidArgument` error stating its rank; a rank-1 integer
sequence whose length is not in {1, 2, 3, 4, 6} fails with an
`InvalidArgument` error stating the offending length; a negative entry
fails with an `InvalidArgument` error naming the first offending value; and
a non-integer dtype fails with a `TypeError`. -/
theorem claim_C8_pad_size_validation (g : Grid) (raw : PadSizeRaw) (pv : PadValue)
    (scalars : Option String) (allScalars : Bool) (spec : OperationMask) :
    (raw.ndim ≠ 1 →
      padImage g raw pv scalars allScalars spec = .error (.padSizeBadRank raw.ndim) ∧
      (ImgError.padSizeBadRank raw.ndim).isTypeError = false) ∧
    (raw.ndim = 1 → raw.values.all qInt = false →
      padImage g raw pv scalars allScalars spec = .error .padSizeNotInt ∧
      ImgError.padSizeNotInt.isTypeError = true) ∧
    (raw.ndim = 1 → raw.values.all qInt = true →
      ¬ (raw.values.length = 1 ∨ raw.values.length = 2 ∨ raw.values.length = 3 ∨
          raw.values.length = 4 ∨ raw.values.length = 6) →
      padImage g raw pv scalars allScalars spec
        = .error (.padSizeBadLength raw.values.length) ∧
      (ImgError.padSizeBadLength raw.values.length).isTypeError = false) ∧
    (raw.ndim = 1 → raw.values.all qInt = true →
      (raw.values.length = 1 ∨ raw.values.length = 2 ∨ raw.values.length = 3 ∨
        raw.values.length = 4 ∨ raw.values.length = 6) →
      ∀ v, (raw.values.map Rat.num).find? (fun x => decide (x < 0)) = some v →
        v < 0 ∧
        padImage g raw pv scalars allScalars spec = .error (.padSizeNegative v) ∧
        (ImgError.padSizeNegative v).isTypeError = false) := by
  refine ⟨?_, ?_, ?_, ?_⟩
  · intro hr
    exact ⟨by simp only [padImage]; rw [if_pos hr], rfl⟩
  · intro hr hi
    refine ⟨?_, rfl⟩
    simp only [padImage]
    rw [if_neg (by simp [hr]), if_pos (by simp [hi])]
  · intro hr hi hlen
    refine ⟨?_, rfl⟩
    simp only [padImage]
    rw [if_neg (by simp [hr]), if_neg (by simp [hi])]
    have hnone : normalizePad (raw.values.map Rat.num) = none := by
      rw [normalizePad_eq_none]
      simpa using hlen
    rw [hnone]
    simp
  · intro hr hi hlen v hfind
    refine ⟨by simpa using List.find?_some hfind, ?_, rfl⟩
    simp only [padImage]
    rw [if_neg (by simp [hr]), if_neg (by simp [hi])]
    rcases hnorm : normalizePad (raw.values.map Rat.num) with _ | tup
    · rw [normalizePad_eq_none] at hnorm
      exact absurd (by simpa using hlen) hnorm
    · obtain ⟨bx, ax, bY, ay, bz, az⟩ := tup
      rw [hfind]

/-- A raw `pad_size` of rank 2 (a nested sequence). -/
def rawRank2 : PadSizeRaw := ⟨2, [1]⟩

/-- Concrete instances of `claim_C8_pad_size_validation`: rank-2 input,
non-integer dtype, length 5, and a negative entry each fail with the
documented error kind. -/
theorem claim_C8_pad_size_validation_witness :
    (padImage gridC5W rawRank2 (.constant [7]) none false .preserve
      = .error (.padSizeBadRank 2) ∧
      (ImgError.padSizeBadRank 2).isTypeError = false) ∧
    (padImage gridC5W ⟨1, [Rat.mk' 1 2]⟩ (.constant [7]) none false .preserve
      = .error .padSizeNotInt ∧ ImgError.padSizeNotInt.isTypeError = true) ∧
    (padImage gridC5W ⟨1, [1, 2, 3, 4, 5]⟩ (.constant [7]) none false .preserve
      = .error (.padSizeBadLength 5) ∧
      (ImgError.padSizeBadLength 5).isTypeError = false) ∧
    ((-1 : ℤ) < 0 ∧
      padImage gridC5W ⟨1, [-1]⟩ (.constant [7]) none false .preserve
        = .error (.padSizeNegative (-1)) ∧
      (ImgError.padSizeNegative (-1)).isTypeError = false) :=
  ⟨(claim_C8_pad_size_validation gridC5W rawRank2 (.constant [7]) none false .preserve).1
      (by decide),
   (claim_C8_pad_size_validation gridC5W ⟨1, [Rat.mk' 1 2]⟩ (.constant [7]) none false
      .preserve).2.1 rfl (by decide),
   (claim_C8_pad_size_validation gridC5W ⟨1, [1, 2, 3, 4, 5]⟩ (.constant [7]) none false
      .preserve).2.2.1 rfl (by decide) (by decide),
   (claim_C8_pad_size_validation gridC5W ⟨1, [-1]⟩ (.constant [7]) none false
      .preserve).2.2.2 rfl (by decide) (by decide) (-1) (by decide)⟩

/-- Concrete instance of `claim_C5_pad_geometry`: `pad_size (1, 2)` on a
`(1, 1, 1)` grid with the full mask pads the x axis symmetrically by 1 and
the y axis symmetrically by 2, giving dimensions `(3, 5, 1)` with unchanged
spacing. -/
theorem claim_C5_pad_geometry_witness :
    ∃ g', padImage gridC5W ⟨1, [1, 2]⟩ (.constant [7]) none false
        (.explicitMask (true, true, true)) = .ok g' ∧
      g'.dims = (3, 5, 1) ∧ g'.spacing = gridC5W.spacing := by
  obtain ⟨hdims, hspac, horig, hb1, hb2, hb3⟩ :=
    claim_C5_pad_geometry gridC5W _ ⟨1, [1, 2]⟩ (.constant [7]) none false
      (true, true, true) 1 1 2 2 0 0 (by decide) (by decide) (by decide) (by decide) rfl
  exact ⟨_, rfl, hdims.trans (by decide), hspac⟩

end PyVista
